import Mathlib

set_option linter.unusedVariables false
set_option maxRecDepth 20000

/-!
Shallow embedding of the SupplyChainFinancing commercial-paper contract.

Sources embedded here:
* `src/commercial-paper/organization/funder/contract/lib/paper.js` — the
  `cpState` enumeration and the `CommercialPaper` entity class.
* `src/unnamed/part_000` (`papercontract.js`) — the `CommercialPaperContract`
  lifecycle operations `purchase`, `invoice`, `issue`, `confirm`, `earlyPay`,
  `acknowledge`, `pay`.

The ledger collection (`paperlist.js`), the `State` base class (`state.js`)
and the JavaScript platform primitives (`JSON.parse`, `JSON.stringify`,
`Buffer.from`) are not part of the two source files; where the development
needs them they are modelled explicitly, and each such definition carries a
doc comment saying what it models.

JavaScript dynamic method dispatch matters here: the contract invokes state
setter and predicate methods on the entity by name, and calling a method the
class does not define throws a `TypeError`.  The embedding therefore routes
every state setter / state predicate call through a dispatch table holding
exactly the method names that `paper.js` defines.
-/

/-- canonical decimal digits of a positive natural number, most significant
first; `fuel` bounds the recursion and is always called with `fuel > n`. -/
def natDigitsAux : Nat → Nat → List Char
  | 0, _ => []
  | _ + 1, 0 => []
  | fuel + 1, n + 1 =>
    natDigitsAux fuel ((n + 1) / 10) ++ [Char.ofNat ((n + 1) % 10 + 48)]

/-- canonical decimal rendering of a natural number, the string a JavaScript
number produces when coerced to a string. -/
def natToString (n : Nat) : String :=
  if n = 0 then "0" else String.mk (natDigitsAux (n + 1) n)

/-- failure outcomes of a contract invocation: `error` is a plain
`throw new Error(msg)` from `papercontract.js`; `typeError` is the JavaScript
`TypeError` raised when a method the class does not define is invoked;
`notFound` / `alreadyExists` are the ledger collection failures of the spec;
`decodeError` / `syntaxError` are envelope decoding failures. -/
inductive JsError where
  | error (msg : String)
  | typeError (msg : String)
  | notFound (key : String)
  | alreadyExists (key : String)
  | decodeError (msg : String)
  | syntaxError (msg : String)
deriving DecidableEq, Repr

/-- primitive JSON values: the field values of a serialized entity. -/
inductive JsonPrim where
  | null
  | bool (b : Bool)
  | num (n : Nat)
  | str (s : String)
deriving DecidableEq, Repr

/-- JSON values one level deep: a primitive, an array of primitives, or an
object with primitive fields.  Every value the contract serializes or parses
is of this flat shape (a tag plus primitive business fields). -/
inductive Json where
  | prim (p : JsonPrim)
  | arr (xs : List JsonPrim)
  | obj (fields : List (String × JsonPrim))
deriving DecidableEq, Repr

/-- a Node.js `Buffer`, modelled as its decoded text. -/
abbrev Buffer := String

/-- the commercial paper entity: the constructor fields of
`CommercialPaper` in `paper.js` plus the `class` tag and `key` assigned by
the `State` base class.  `owner` and `currentState` are absent (undefined /
null) until a setter assigns them, hence `Option`. -/
structure CommercialPaper where
  «class» : String
  key : String
  currentState : Option Nat
  issuer : String
  paperNumber : Nat
  issueDateTime : String
  maturityDateTime : String
  faceValue : Nat
  owner : Option String
deriving DecidableEq, Repr

/-- the `cpState` enumeration object of `paper.js` lines 11-19, an
association of state names to numeric values, in source order. -/
def cpState : List (String × Nat) :=
  [("PURCHASE", 1), ("INVOICE", 2), ("ISSUE", 3), ("CONFIRM", 4),
   ("DEPOSIT", 5), ("APPROVE", 6), ("PAY", 7)]

/-- the state setter methods class `CommercialPaper` defines
(`paper.js` lines 54-74): method name paired with the `cpState` name whose
value the method assigns to `this.currentState`. -/
def stateSetters : List (String × String) :=
  [("setPurchase", "PURCHASE"), ("setInvoice", "INVOICE"),
   ("setIssue", "ISSUE"), ("setConfirm", "CONFIRM"),
   ("setDeposit", "DEPOSIT"), ("setApprove", "APPROVE"), ("setPay", "PAY")]

/-- the state predicate methods class `CommercialPaper` defines
(`paper.js` lines 75-95): method name paired with the `cpState` name whose
value the method compares `this.currentState` against with `===`. -/
def statePreds : List (String × String) :=
  [("isPurchase", "PURCHASE"), ("isInvoice", "INVOICE"),
   ("isIssue", "ISSUE"), ("isConfirm", "CONFIRM"),
   ("isDeposit", "DEPOSIT"), ("isApprove", "APPROVE"), ("isPay", "PAY")]

/-- dynamic dispatch of a state setter call `paper.<name>()`: if the class
defines the method, assign the corresponding `cpState` value to
`currentState`; otherwise the call throws a `TypeError`. -/
def CommercialPaper.callStateSetter (p : CommercialPaper) (name : String) :
    Except JsError CommercialPaper :=
  match stateSetters.lookup name with
  | some stName => .ok { p with currentState := cpState.lookup stName }
  | none => .error (.typeError ("paper." ++ name ++ " is not a function"))

/-- dynamic dispatch of a state predicate call `paper.<name>()`: if the class
defines the method, compare `currentState` to the corresponding `cpState`
value; otherwise the call throws a `TypeError`. -/
def CommercialPaper.callStatePred (p : CommercialPaper) (name : String) :
    Except JsError Bool :=
  match statePreds.lookup name with
  | some stName => .ok (p.currentState == cpState.lookup stName)
  | none => .error (.typeError ("paper." ++ name ++ " is not a function"))

/-- `getOwner` of `paper.js`. -/
def CommercialPaper.getOwner (p : CommercialPaper) : Option String := p.owner

/-- `setOwner` of `paper.js`. -/
def CommercialPaper.setOwner (p : CommercialPaper) (newOwner : String) :
    CommercialPaper := { p with owner := some newOwner }

/-- the static `getClass` of `paper.js`. -/
def CommercialPaper.getClass : String := "org.papernet.commercialpaper"

/-- Modelled from the spec: `State.makeKey` of the missing
`ledger-api/state.js` — the key codec.  Per the spec, the components are
joined by a separator that is guaranteed not to appear inside any component,
numeric components having been rendered canonically. -/
def State.makeKey (components : List String) : String :=
  match components with
  | [] => ""
  | [c] => c
  | c :: rest => c ++ ":" ++ State.makeKey rest

/-- the static `makeKey` the `CommercialPaper` class inherits from `State`. -/
def CommercialPaper.makeKey (components : List String) : String :=
  State.makeKey components

/-- Modelled from the spec: the `State` base-class constructor of the missing
`ledger-api/state.js` assigns the type tag and the derived key; the factory
builds a fresh instance with no state and no owner set.  The remaining fields
are `createInstance` / the `CommercialPaper` constructor of `paper.js`. -/
def CommercialPaper.createInstance (issuer : String) (paperNumber : Nat)
    (issueDateTime maturityDateTime : String) (faceValue : Nat) :
    CommercialPaper :=
  { «class» := CommercialPaper.getClass,
    key := State.makeKey [issuer, natToString paperNumber],
    currentState := none,
    issuer := issuer, paperNumber := paperNumber,
    issueDateTime := issueDateTime, maturityDateTime := maturityDateTime,
    faceValue := faceValue, owner := none }

/-- string a JavaScript expression `'' + currentState` produces in the
contract's error messages: the number, or `null` for an unset state. -/
def jsShowState : Option Nat → String
  | some n => natToString n
  | none => "null"

/-- the world state, an association of keys to stored entities. -/
abbrev Ledger := List (String × CommercialPaper)

/-- lookup of the record stored at a key. -/
def ledgerGet : Ledger → String → Option CommercialPaper
  | [], _ => none
  | (k, p) :: rest, key => if k = key then some p else ledgerGet rest key

/-- replacement of every record stored at a key. -/
def ledgerReplace : Ledger → String → CommercialPaper → Ledger
  | [], _, _ => []
  | (k, q) :: rest, key, p =>
    (k, if k = key then p else q) :: ledgerReplace rest key p

/-- Modelled from the spec: `getPaper` of the missing `paperlist.js` — the
ledger collection `getByKey`, failing with NotFound if no record exists. -/
def PaperList.getPaper (ledger : Ledger) (key : String) :
    Except JsError CommercialPaper :=
  match ledgerGet ledger key with
  | some p => .ok p
  | none => .error (.notFound key)

/-- Modelled from the spec: `addPaper` of the missing `paperlist.js` — the
ledger collection `create`, failing with AlreadyExists if a record already
exists at the entity's derived key. -/
def PaperList.addPaper (ledger : Ledger) (p : CommercialPaper) :
    Except JsError Ledger :=
  match ledgerGet ledger p.key with
  | some _ => .error (.alreadyExists p.key)
  | none => .ok ((p.key, p) :: ledger)

/-- Modelled from the spec: `updatePaper` of the missing `paperlist.js` — the
ledger collection `update`, failing with NotFound if no record exists at the
entity's derived key; it never creates. -/
def PaperList.updatePaper (ledger : Ledger) (p : CommercialPaper) :
    Except JsError Ledger :=
  match ledgerGet ledger p.key with
  | some _ => .ok (ledgerReplace ledger p.key p)
  | none => .error (.notFound p.key)

/-- an opening curly brace character. -/
def lcurly : Char := Char.ofNat 123

/-- a closing curly brace character. -/
def rcurly : Char := Char.ofNat 125

/-- JSON escaping of one character inside a string literal. -/
def escapeJsonChar (c : Char) : List Char :=
  if c = '"' then ['\\', '"']
  else if c = '\\' then ['\\', '\\']
  else if c = '\n' then ['\\', 'n']
  else if c = '\t' then ['\\', 't']
  else if c = '\r' then ['\\', 'r']
  else [c]

/-- JSON rendering of a string literal, quotes included. -/
def renderJsonString (s : String) : List Char :=
  '"' :: (s.data.map escapeJsonChar).flatten ++ ['"']

/-- JSON rendering of a primitive value. -/
def JsonPrim.render : JsonPrim → List Char
  | .null => "null".data
  | .bool true => "true".data
  | .bool false => "false".data
  | .num n => (natToString n).data
  | .str s => renderJsonString s

/-- comma-separated JSON rendering of array elements. -/
def renderElems : List JsonPrim → List Char
  | [] => []
  | [x] => x.render
  | x :: y :: xs => x.render ++ ',' :: renderElems (y :: xs)

/-- comma-separated JSON rendering of object members. -/
def renderFields : List (String × JsonPrim) → List Char
  | [] => []
  | [(k, v)] => renderJsonString k ++ ':' :: v.render
  | (k, v) :: f :: fs =>
    renderJsonString k ++ ':' :: v.render ++ ',' :: renderFields (f :: fs)

/-- `JSON.stringify` of a value: the canonical JSON text. -/
def Json.render : Json → String
  | .prim p => String.mk p.render
  | .arr xs => String.mk ('[' :: renderElems xs ++ [']'])
  | .obj fs => String.mk (lcurly :: renderFields fs ++ [rcurly])

/-- whitespace skipping during JSON parsing. -/
def skipWs : List Char → List Char
  | [] => []
  | c :: cs =>
    if c = ' ' ∨ c = '\n' ∨ c = '\t' ∨ c = '\r' then skipWs cs else c :: cs

/-- parsing of the remainder of a JSON string literal (the opening quote
already consumed), unescaping as it goes. -/
def parseStrAux : List Char → List Char → Option (String × List Char)
  | [], _ => none
  | c :: cs, acc =>
    if c = '"' then some (String.mk acc.reverse, cs)
    else if c = '\\' then
      match cs with
      | [] => none
      | e :: cs2 =>
        if e = '"' then parseStrAux cs2 ('"' :: acc)
        else if e = '\\' then parseStrAux cs2 ('\\' :: acc)
        else if e = 'n' then parseStrAux cs2 ('\n' :: acc)
        else if e = 't' then parseStrAux cs2 ('\t' :: acc)
        else if e = 'r' then parseStrAux cs2 ('\r' :: acc)
        else none
    else parseStrAux cs (c :: acc)

/-- longest leading run of decimal digits. -/
def takeDigits : List Char → List Char × List Char
  | [] => ([], [])
  | c :: cs =>
    if c.isDigit then
      let (ds, rest) := takeDigits cs
      (c :: ds, rest)
    else ([], c :: cs)

/-- numeric value of a list of decimal digits, most significant first. -/
def digitsToNat (ds : List Char) : Nat :=
  ds.foldl (fun acc c => acc * 10 + (c.toNat - 48)) 0

/-- parsing of one primitive JSON value at the head of the input. -/
def parsePrim (input : List Char) : Option (JsonPrim × List Char) :=
  match skipWs input with
  | [] => none
  | c :: cs =>
    if c = '"' then
      match parseStrAux cs [] with
      | some (s, r) => some (.str s, r)
      | none => none
    else if c.isDigit then
      let (ds, rest) := takeDigits (c :: cs)
      some (.num (digitsToNat ds), rest)
    else if c = 'n' then
      match cs with
      | 'u' :: 'l' :: 'l' :: r => some (.null, r)
      | _ => none
    else if c = 't' then
      match cs with
      | 'r' :: 'u' :: 'e' :: r => some (.bool true, r)
      | _ => none
    else if c = 'f' then
      match cs with
      | 'a' :: 'l' :: 's' :: 'e' :: r => some (.bool false, r)
      | _ => none
    else none

/-- parsing of one or more `"key": value` object members, up to and including
the closing brace; `fuel` bounds the recursion. -/
def parseMembersAux : Nat → List Char → Option (List (String × JsonPrim) × List Char)
  | 0, _ => none
  | fuel + 1, input =>
    match skipWs input with
    | [] => none
    | c :: cs =>
      if c = '"' then
        match parseStrAux cs [] with
        | none => none
        | some (k, r1) =>
          match skipWs r1 with
          | ':' :: r2 =>
            match parsePrim r2 with
            | none => none
            | some (v, r3) =>
              match skipWs r3 with
              | [] => none
              | c2 :: r4 =>
                if c2 = ',' then
                  match parseMembersAux fuel r4 with
                  | some (rest, r5) => some ((k, v) :: rest, r5)
                  | none => none
                else if c2 = rcurly then some ([(k, v)], r4)
                else none
          | _ => none
      else none

/-- parsing of one or more array elements, up to and including the closing
bracket; `fuel` bounds the recursion. -/
def parseElemsAux : Nat → List Char → Option (List JsonPrim × List Char)
  | 0, _ => none
  | fuel + 1, input =>
    match parsePrim input with
    | none => none
    | some (v, r1) =>
      match skipWs r1 with
      | [] => none
      | c :: r2 =>
        if c = ',' then
          match parseElemsAux fuel r2 with
          | some (rest, r3) => some (v :: rest, r3)
          | none => none
        else if c = ']' then some ([v], r2)
        else none

/-- `JSON.parse` of a text, for the flat JSON values of this contract;
`none` is the JavaScript `SyntaxError`. -/
def jsonParse (s : String) : Option Json :=
  match skipWs s.data with
  | [] => none
  | c :: cs =>
    if c = lcurly then
      match skipWs cs with
      | [] => none
      | c2 :: cs2 =>
        if c2 = rcurly then
          if (skipWs cs2).isEmpty then some (.obj []) else none
        else
          match parseMembersAux (s.length + 1) (c2 :: cs2) with
          | some (fs, rest) =>
            if (skipWs rest).isEmpty then some (.obj fs) else none
          | none => none
    else if c = '[' then
      match skipWs cs with
      | [] => none
      | c2 :: cs2 =>
        if c2 = ']' then
          if (skipWs cs2).isEmpty then some (.arr []) else none
        else
          match parseElemsAux (s.length + 1) (c2 :: cs2) with
          | some (xs, rest) =>
            if (skipWs rest).isEmpty then some (.arr xs) else none
          | none => none
    else
      match parsePrim (c :: cs) with
      | some (p, rest) =>
        if (skipWs rest).isEmpty then some (.prim p) else none
      | none => none

/-- `Buffer.from` applied to a parsed JSON value: a string yields its bytes,
an array yields the bytes of its coerced elements, and any other value —
in particular a plain object — throws a `TypeError`. -/
def bufferFrom : Json → Except JsError Buffer
  | .prim (.str s) => .ok s
  | .arr xs =>
    .ok (String.mk (xs.map (fun p =>
      match p with
      | .num n => Char.ofNat (n % 256)
      | _ => Char.ofNat 0)))
  | _ => .error (.typeError
      "The first argument must be of type string or an instance of Buffer, ArrayBuffer, or Array or an Array-like Object")

/-- the JSON object `JSON.stringify(this)` serializes for an entity: every
own field in insertion order, fields that were never assigned being absent. -/
def CommercialPaper.toJson (p : CommercialPaper) : Json :=
  Json.obj
    ([("class", JsonPrim.str p.«class»), ("key", JsonPrim.str p.key)]
      ++ (match p.currentState with
          | some n => [("currentState", JsonPrim.num n)]
          | none => [])
      ++ [("issuer", JsonPrim.str p.issuer),
          ("paperNumber", JsonPrim.num p.paperNumber),
          ("issueDateTime", JsonPrim.str p.issueDateTime),
          ("maturityDateTime", JsonPrim.str p.maturityDateTime),
          ("faceValue", JsonPrim.num p.faceValue)]
      ++ (match p.owner with
          | some o => [("owner", JsonPrim.str o)]
          | none => []))

/-- `toBuffer` of `paper.js`: `Buffer.from(JSON.stringify(this))`. -/
def CommercialPaper.toBuffer (p : CommercialPaper) : Buffer :=
  (CommercialPaper.toJson p).render

/-- Modelled from the spec: `State.deserializeClass` of the missing
`ledger-api/state.js` — the envelope `unwrap`: decode the stored bytes,
check the type tag, and rebuild the entity's fields; fails with a decoding
error if the tag is absent, malformed, or mismatched. -/
def State.deserializeClass (data : Buffer) : Except JsError CommercialPaper :=
  match jsonParse data with
  | none => .error (.decodeError "invalid envelope")
  | some (.obj fs) =>
    match fs.lookup "class" with
    | some (.str c) =>
      if c = CommercialPaper.getClass then
        match fs.lookup "key", fs.lookup "issuer", fs.lookup "paperNumber",
              fs.lookup "issueDateTime", fs.lookup "maturityDateTime",
              fs.lookup "faceValue" with
        | some (.str key), some (.str issuer), some (.num pn),
          some (.str idt), some (.str mdt), some (.num fv) =>
          .ok { «class» := c, key := key,
                currentState :=
                  (match fs.lookup "currentState" with
                   | some (.num s) => some s
                   | _ => none),
                issuer := issuer, paperNumber := pn,
                issueDateTime := idt, maturityDateTime := mdt,
                faceValue := fv,
                owner :=
                  (match fs.lookup "owner" with
                   | some (.str o) => some o
                   | _ => none) }
        | _, _, _, _, _, _ => .error (.decodeError "malformed commercial paper")
      else .error (.decodeError ("unexpected type " ++ c))
    | _ => .error (.decodeError "missing type tag")
  | some _ => .error (.decodeError "invalid envelope")

/-- the static `deserialize` of `paper.js`:
`State.deserializeClass(data, CommercialPaper)`. -/
def CommercialPaper.deserialize (data : Buffer) : Except JsError CommercialPaper :=
  State.deserializeClass data

/-- the static `fromBuffer` of `paper.js`:
`CommercialPaper.deserialize(Buffer.from(JSON.parse(buffer)))`. -/
def CommercialPaper.fromBuffer (buffer : Buffer) : Except JsError CommercialPaper :=
  match jsonParse buffer with
  | none => .error (.syntaxError "Unexpected token in JSON")
  | some v =>
    match bufferFrom v with
    | .error e => .error e
    | .ok data => CommercialPaper.deserialize data

/-- JavaScript exception propagation: evaluate a call, rethrow its error, or
continue with its result. -/
def jsTry {α β : Type} (r : Except JsError α) (f : α → Except JsError β) :
    Except JsError β :=
  match r with
  | .error e => .error e
  | .ok a => f a

/-- shared body of the six advancing operations of `papercontract.js`.  Each
of `invoice`, `issue`, `confirm`, `earlyPay`, `acknowledge` and `pay` has the
same text up to the names of the three state methods it invokes and the verb
of its failure message: load the paper by key, throw unless the stored owner
equals `currentOwner`, invoke the predecessor-state predicate `firstPred` and
on success the setter `setter`, invoke the target-state predicate
`secondPred`, on success assign the new owner, update the ledger record and
return the serialized paper; otherwise throw the not-in-state error.
Exception propagation of the JavaScript calls is the explicit `Except`
plumbing. -/
def advanceBody (firstPred setter secondPred notVerb : String)
    (ledger : Ledger) (issuer : String) (paperNumber : Nat)
    (currentOwner newOwner : String) : Except JsError (Ledger × Buffer) :=
  let paperKey := CommercialPaper.makeKey [issuer, natToString paperNumber]
  jsTry (PaperList.getPaper ledger paperKey) (fun paper =>
    if paper.getOwner ≠ some currentOwner then
      .error (.error ("Paper " ++ issuer ++ natToString paperNumber
        ++ " is not owned by " ++ currentOwner))
    else
      jsTry (paper.callStatePred firstPred) (fun atPred =>
        jsTry (if atPred then paper.callStateSetter setter else .ok paper)
          (fun paper2 =>
            jsTry (paper2.callStatePred secondPred) (fun atTarget =>
              if atTarget then
                let paper3 := paper2.setOwner newOwner
                jsTry (PaperList.updatePaper ledger paper3) (fun ledger2 =>
                  .ok (ledger2, paper3.toBuffer))
              else
                .error (.error ("Paper " ++ issuer ++ natToString paperNumber
                  ++ " is not " ++ notVerb ++ ". Current state = "
                  ++ jsShowState paper2.currentState))))))

/-- `purchase` of `papercontract.js` lines 66-82: create a fresh paper, move
it to the PURCHASE state, assign the new owner, add it to the ledger and
return the serialized paper. -/
def CommercialPaperContract.purchase (ledger : Ledger) (issuer : String)
    (paperNumber : Nat) (newOwner issueDateTime maturityDateTime : String)
    (faceValue : Nat) : Except JsError (Ledger × Buffer) :=
  let paper := CommercialPaper.createInstance issuer paperNumber
    issueDateTime maturityDateTime faceValue
  jsTry (paper.callStateSetter "setPurchase") (fun paper1 =>
    let paper2 := paper1.setOwner newOwner
    jsTry (PaperList.addPaper ledger paper2) (fun ledger1 =>
      .ok (ledger1, paper2.toBuffer)))

/-- `invoice` of `papercontract.js` lines 95-121: the shared advancing body
with methods `isPurchase` / `setInvoice` / `isInvoice`.  The `invoiceAmount`
and `invoiceDateTime` parameters are accepted and unused, as in the source. -/
def CommercialPaperContract.invoice (ledger : Ledger) (issuer : String)
    (paperNumber : Nat) (currentOwner newOwner : String)
    (invoiceAmount : Nat) (invoiceDateTime : String) :
    Except JsError (Ledger × Buffer) :=
  advanceBody "isPurchase" "setInvoice" "isInvoice" "invoiced"
    ledger issuer paperNumber currentOwner newOwner

/-- `issue` of `papercontract.js` lines 134-160: the shared advancing body
with methods `isInvoice` / `setIssue` / `isIssue`. -/
def CommercialPaperContract.issue (ledger : Ledger) (issuer : String)
    (paperNumber : Nat) (currentOwner newOwner : String)
    (issueAmount : Nat) (issueDateTime : String) :
    Except JsError (Ledger × Buffer) :=
  advanceBody "isInvoice" "setIssue" "isIssue" "issued"
    ledger issuer paperNumber currentOwner newOwner

/-- `confirm` of `papercontract.js` lines 173-199: the shared advancing body
with methods `isIssue` / `setConfirm` / `isConfirm`. -/
def CommercialPaperContract.confirm (ledger : Ledger) (issuer : String)
    (paperNumber : Nat) (currentOwner newOwner : String)
    (confirmAmount : Nat) (confirmDateTime : String) :
    Except JsError (Ledger × Buffer) :=
  advanceBody "isIssue" "setConfirm" "isConfirm" "confirmed"
    ledger issuer paperNumber currentOwner newOwner

/-- `earlyPay` of `papercontract.js` lines 212-238: the shared advancing body
with methods `isConfirm` / `setEarlyPay` / `isEarlyPay` — the latter two are
not defined by class `CommercialPaper`. -/
def CommercialPaperContract.earlyPay (ledger : Ledger) (issuer : String)
    (paperNumber : Nat) (currentOwner newOwner : String)
    (earlyPayAmount : Nat) (earlyPayDateTime : String) :
    Except JsError (Ledger × Buffer) :=
  advanceBody "isConfirm" "setEarlyPay" "isEarlyPay" "early paid"
    ledger issuer paperNumber currentOwner newOwner

/-- `acknowledge` of `papercontract.js` lines 251-277: the shared advancing
body with methods `isEarlyPay` / `setAcknowledge` / `isAcknowledge` — none of
which are defined by class `CommercialPaper`. -/
def CommercialPaperContract.acknowledge (ledger : Ledger) (issuer : String)
    (paperNumber : Nat) (currentOwner newOwner : String)
    (acknowledgeAmount : Nat) (acknowledgeDateTime : String) :
    Except JsError (Ledger × Buffer) :=
  advanceBody "isEarlyPay" "setAcknowledge" "isAcknowledge" "acknowledged"
    ledger issuer paperNumber currentOwner newOwner

/-- `pay` of `papercontract.js` lines 290-316: the shared advancing body with
methods `isAcknowledge` / `setPay` / `isPay` — the first of which is not
defined by class `CommercialPaper`. -/
def CommercialPaperContract.pay (ledger : Ledger) (issuer : String)
    (paperNumber : Nat) (currentOwner newOwner : String)
    (payAmount : Nat) (payDateTime : String) :
    Except JsError (Ledger × Buffer) :=
  advanceBody "isAcknowledge" "setPay" "isPay" "paid"
    ledger issuer paperNumber currentOwner newOwner

/-- names of the six advancing operations. -/
inductive AdvanceOp where
  | invoice | issue | confirm | earlyPay | acknowledge | pay
deriving DecidableEq, Repr

/-- dispatch of an advancing operation by name. -/
def runAdvance (op : AdvanceOp) (ledger : Ledger) (issuer : String)
    (paperNumber : Nat) (currentOwner newOwner : String)
    (amount : Nat) (dateTime : String) : Except JsError (Ledger × Buffer) :=
  match op with
  | .invoice => CommercialPaperContract.invoice ledger issuer paperNumber
      currentOwner newOwner amount dateTime
  | .issue => CommercialPaperContract.issue ledger issuer paperNumber
      currentOwner newOwner amount dateTime
  | .confirm => CommercialPaperContract.confirm ledger issuer paperNumber
      currentOwner newOwner amount dateTime
  | .earlyPay => CommercialPaperContract.earlyPay ledger issuer paperNumber
      currentOwner newOwner amount dateTime
  | .acknowledge => CommercialPaperContract.acknowledge ledger issuer
      paperNumber currentOwner newOwner amount dateTime
  | .pay => CommercialPaperContract.pay ledger issuer paperNumber
      currentOwner newOwner amount dateTime

/-- one invocation of any of the seven contract operations. -/
inductive Command where
  | purchase (issuer : String) (paperNumber : Nat)
      (newOwner issueDateTime maturityDateTime : String) (faceValue : Nat)
  | advance (op : AdvanceOp) (issuer : String) (paperNumber : Nat)
      (currentOwner newOwner : String) (amount : Nat) (dateTime : String)
deriving DecidableEq, Repr

/-- running one command against the ledger. -/
def runCommand : Command → Ledger → Except JsError (Ledger × Buffer)
  | .purchase issuer pn newOwner idt mdt fv, l =>
    CommercialPaperContract.purchase l issuer pn newOwner idt mdt fv
  | .advance op issuer pn co no amt dt, l =>
    runAdvance op l issuer pn co no amt dt

/-- outcome of one invocation on the ledger: a failed invocation aborts with
no effect, a successful one commits its updated ledger. -/
def commitResult (r : Except JsError (Ledger × Buffer)) (l : Ledger) : Ledger :=
  match r with
  | .ok (l2, _) => l2
  | .error _ => l

/-- running a sequence of commands against the ledger. -/
def runCommands : List Command → Ledger → Ledger
  | [], l => l
  | c :: cs, l => runCommands cs (commitResult (runCommand c l) l)

/-- decidable equality of invocation results, so that concrete runs can be
checked by evaluation. -/
def exceptDecEq {ε α : Type} [DecidableEq ε] [DecidableEq α] :
    (a b : Except ε α) → Decidable (a = b)
  | .error e, .error f =>
    if h : e = f then isTrue (by rw [h])
    else isFalse (fun c => by injection c; exact h (by assumption))
  | .error _, .ok _ => isFalse (fun c => Except.noConfusion c)
  | .ok _, .error _ => isFalse (fun c => Except.noConfusion c)
  | .ok a, .ok b =>
    if h : a = b then isTrue (by rw [h])
    else isFalse (fun c => by injection c; exact h (by assumption))

instance {ε α : Type} [DecidableEq ε] [DecidableEq α] :
    DecidableEq (Except ε α) := exceptDecEq

/-- states a paper can actually reach: the four values the defined setter
methods that the operations successfully invoke can assign. -/
def StateOk (p : CommercialPaper) : Prop :=
  p.currentState = some 1 ∨ p.currentState = some 2 ∨
  p.currentState = some 3 ∨ p.currentState = some 4

/-- every record of the ledger has a reachable state. -/
def LedgerStatesOk (l : Ledger) : Prop :=
  ∀ k p, ledgerGet l k = some p → StateOk p

/-- every record of the ledger is stored at its own derived key, as every
record the contract itself persists is. -/
def WellKeyed (l : Ledger) : Prop :=
  ∀ k p, ledgerGet l k = some p → p.key = k

/-- a sample stored paper used as concrete input of the witnesses: the
entity scenario 1 of the spec creates, after its `invoice` step. -/
def samplePaper : CommercialPaper :=
  { «class» := "org.papernet.commercialpaper", key := "MagnetoCorp:1",
    currentState := some 2, issuer := "MagnetoCorp", paperNumber := 1,
    issueDateTime := "2020-05-31", maturityDateTime := "2020-11-30",
    faceValue := 5000000, owner := some "DigiBank" }

/-!
Theorems.  Each claim of the specification review is settled by exactly one
theorem below; shared helper lemmas precede them.
-/

/-- C1.  The claim says all six advancing operations advance their
predecessor state to their target state; in particular `earlyPay` advances
CONFIRM to EARLYPAY.  On the code this fails: with the stored paper at
CONFIRM and the correct current owner supplied, `earlyPay` reaches
`paper.setEarlyPay()`, a method class `CommercialPaper` does not define, and
the invocation throws a `TypeError` instead of advancing and persisting. -/
theorem earlyPay_confirm_typeError :
    CommercialPaperContract.earlyPay
      [("MagnetoCorp:1", { samplePaper with currentState := some 4 })]
      "MagnetoCorp" 1 "DigiBank" "HSBC" 4900000 "2020-10-01"
      = .error (.typeError "paper.setEarlyPay is not a function") := by
  decide

/-- C3.  The claim says every advancing operation invoked with the entity
already at its target state performs a pure ownership transfer and never
errors.  On the code this fails for `pay`: with the stored paper already at
PAY(7) and the correct owner supplied, `pay` first invokes
`paper.isAcknowledge()`, a method class `CommercialPaper` does not define,
and the invocation throws a `TypeError` instead of transferring ownership. -/
theorem pay_at_pay_typeError :
    CommercialPaperContract.pay
      [("MagnetoCorp:1", { samplePaper with currentState := some 7 })]
      "MagnetoCorp" 1 "DigiBank" "Citi" 5000000 "2020-11-30"
      = .error (.typeError "paper.isAcknowledge is not a function") := by
  decide

/-- C5.  The claim says an advancing operation invoked with the entity at
neither its predecessor nor its target state fails with an
InvalidStateTransition error reporting the actual and expected states.  On
the code this fails for `earlyPay`: with the stored paper at PURCHASE(1) and
the correct owner supplied, `earlyPay` reaches `paper.isEarlyPay()`, a
method class `CommercialPaper` does not define, and throws a `TypeError`
instead of the state-transition error. -/
theorem earlyPay_skip_typeError :
    CommercialPaperContract.earlyPay
      [("MagnetoCorp:1",
        { samplePaper with currentState := some 1, owner := some "MagnetoCorp" })]
      "MagnetoCorp" 1 "MagnetoCorp" "X" 4900000 "2020-06-15"
      = .error (.typeError "paper.isEarlyPay is not a function") := by
  decide

/-- C8.  The claim says serializing an entity and decoding the result back
through `toBuffer` and `fromBuffer` yields an equal entity.  On the code
this fails for every entity: `fromBuffer` computes
`Buffer.from(JSON.parse(buffer))`, and `Buffer.from` applied to the plain
object `JSON.parse` returns throws a `TypeError` before `deserialize` is
ever reached. -/
theorem fromBuffer_toBuffer_typeError :
    CommercialPaper.fromBuffer (CommercialPaper.toBuffer samplePaper)
      = .error (.typeError
        "The first argument must be of type string or an instance of Buffer, ArrayBuffer, or Array or an Array-like Object") := by
  decide

/-- decoding the serialized entity directly with `deserialize` — the step
`fromBuffer` was evidently meant to delegate to — does round-trip every
field including the type tag, which locates the fault squarely in
`fromBuffer`'s `Buffer.from(JSON.parse(buffer))` composition. -/
theorem deserialize_toBuffer_roundtrip :
    CommercialPaper.deserialize (CommercialPaper.toBuffer samplePaper)
      = .ok samplePaper := by
  decide

/-- C2 counterexample.  The enumeration of `paper.js` has no EARLYPAY or
ACKNOWLEDGE entry — positions 5 and 6 are named DEPOSIT and APPROVE — and
class `CommercialPaper` defines no setter or predicate for EARLYPAY or
ACKNOWLEDGE. -/
theorem cpState_lacks_earlypay_acknowledge :
    cpState.lookup "EARLYPAY" = none ∧ cpState.lookup "ACKNOWLEDGE" = none ∧
    cpState.lookup "DEPOSIT" = some 5 ∧ cpState.lookup "APPROVE" = some 6 ∧
    stateSetters.lookup "setEarlyPay" = none ∧
    stateSetters.lookup "setAcknowledge" = none ∧
    statePreds.lookup "isEarlyPay" = none ∧
    statePreds.lookup "isAcknowledge" = none := by
  decide

/-- C2 as amended.  The entity's state enumeration is the seven ordered
values PURCHASE(1) < INVOICE(2) < ISSUE(3) < CONFIRM(4) < DEPOSIT(5) <
APPROVE(6) < PAY(7), and the class exposes a setter and an is-state
predicate for each of these seven states — DEPOSIT and APPROVE in place of
the claimed EARLYPAY and ACKNOWLEDGE. -/
theorem cpState_deposit_approve_enumeration :
    cpState.map Prod.fst =
      ["PURCHASE", "INVOICE", "ISSUE", "CONFIRM", "DEPOSIT", "APPROVE", "PAY"] ∧
    cpState.map Prod.snd = [1, 2, 3, 4, 5, 6, 7] ∧
    List.Pairwise (fun a b => a < b) (cpState.map Prod.snd) ∧
    stateSetters.map Prod.snd = cpState.map Prod.fst ∧
    statePreds.map Prod.snd = cpState.map Prod.fst := by
  decide

/-- computation rule: continuing after a successful call. -/
theorem jsTry_ok {α β : Type} (a : α) (f : α → Except JsError β) :
    jsTry (.ok a) f = f a := rfl

/-- computation rule: a thrown error propagates. -/
theorem jsTry_error {α β : Type} (e : JsError) (f : α → Except JsError β) :
    jsTry (.error e) f = .error e := rfl

/-- dispatch of `isPurchase`, a method `paper.js` defines. -/
theorem callStatePred_isPurchase (p : CommercialPaper) :
    p.callStatePred "isPurchase" = .ok (p.currentState == some 1) := rfl

/-- dispatch of `isInvoice`, a method `paper.js` defines. -/
theorem callStatePred_isInvoice (p : CommercialPaper) :
    p.callStatePred "isInvoice" = .ok (p.currentState == some 2) := rfl

/-- dispatch of `isIssue`, a method `paper.js` defines. -/
theorem callStatePred_isIssue (p : CommercialPaper) :
    p.callStatePred "isIssue" = .ok (p.currentState == some 3) := rfl

/-- dispatch of `isConfirm`, a method `paper.js` defines. -/
theorem callStatePred_isConfirm (p : CommercialPaper) :
    p.callStatePred "isConfirm" = .ok (p.currentState == some 4) := rfl

/-- dispatch of `isEarlyPay`, which `paper.js` does not define: the call
throws. -/
theorem callStatePred_isEarlyPay (p : CommercialPaper) :
    p.callStatePred "isEarlyPay"
      = .error (.typeError "paper.isEarlyPay is not a function") := rfl

/-- dispatch of `isAcknowledge`, which `paper.js` does not define: the call
throws. -/
theorem callStatePred_isAcknowledge (p : CommercialPaper) :
    p.callStatePred "isAcknowledge"
      = .error (.typeError "paper.isAcknowledge is not a function") := rfl

/-- dispatch of `setPurchase`, a method `paper.js` defines. -/
theorem callStateSetter_setPurchase (p : CommercialPaper) :
    p.callStateSetter "setPurchase" = .ok { p with currentState := some 1 } := rfl

/-- dispatch of `setInvoice`, a method `paper.js` defines. -/
theorem callStateSetter_setInvoice (p : CommercialPaper) :
    p.callStateSetter "setInvoice" = .ok { p with currentState := some 2 } := rfl

/-- dispatch of `setIssue`, a method `paper.js` defines. -/
theorem callStateSetter_setIssue (p : CommercialPaper) :
    p.callStateSetter "setIssue" = .ok { p with currentState := some 3 } := rfl

/-- dispatch of `setConfirm`, a method `paper.js` defines. -/
theorem callStateSetter_setConfirm (p : CommercialPaper) :
    p.callStateSetter "setConfirm" = .ok { p with currentState := some 4 } := rfl

/-- dispatch of `setEarlyPay`, which `paper.js` does not define: the call
throws. -/
theorem callStateSetter_setEarlyPay (p : CommercialPaper) :
    p.callStateSetter "setEarlyPay"
      = .error (.typeError "paper.setEarlyPay is not a function") := rfl

/-- dispatch of `setAcknowledge`, which `paper.js` does not define: the call
throws. -/
theorem callStateSetter_setAcknowledge (p : CommercialPaper) :
    p.callStateSetter "setAcknowledge"
      = .error (.typeError "paper.setAcknowledge is not a function") := rfl

/-- anatomy of a successful advancing operation whose three state methods
all exist (with predecessor value `pv` and target value `tv`): the paper was
loaded, the owner matched, the paper was at `pv` or already at `tv`, and the
paper persisted and returned carries state `tv` and the new owner, all other
fields untouched. -/
theorem advanceBody_ok_elim (fp st sp nv : String) (pv tv : Nat)
    (hfp : ∀ p : CommercialPaper,
      p.callStatePred fp = .ok (p.currentState == some pv))
    (hst : ∀ p : CommercialPaper,
      p.callStateSetter st = .ok { p with currentState := some tv })
    (hsp : ∀ p : CommercialPaper,
      p.callStatePred sp = .ok (p.currentState == some tv))
    (ledger : Ledger) (issuer : String) (pn : Nat) (co no : String)
    (l2 : Ledger) (buf : Buffer)
    (h : advanceBody fp st sp nv ledger issuer pn co no = .ok (l2, buf)) :
    ∃ paper,
      PaperList.getPaper ledger
        (CommercialPaper.makeKey [issuer, natToString pn]) = .ok paper ∧
      paper.owner = some co ∧
      (paper.currentState = some pv ∨ paper.currentState = some tv) ∧
      PaperList.updatePaper ledger
        { paper with currentState := some tv, owner := some no } = .ok l2 ∧
      buf = CommercialPaper.toBuffer
        { paper with currentState := some tv, owner := some no } := by
  simp only [advanceBody] at h
  cases hget : PaperList.getPaper ledger
      (CommercialPaper.makeKey [issuer, natToString pn]) with
  | error e =>
    simp only [hget, jsTry_error] at h
    exact Except.noConfusion h
  | ok paper =>
    simp only [hget, jsTry_ok] at h
    by_cases hown : paper.getOwner = some co
    · rw [if_neg (not_not_intro hown)] at h
      simp only [hfp, jsTry_ok] at h
      refine ⟨paper, rfl, hown, ?_⟩
      by_cases hpv : paper.currentState = some pv
      · simp only [hpv, beq_self_eq_true, if_true, hst, jsTry_ok, hsp] at h
        cases hupd : PaperList.updatePaper ledger
            (({ paper with currentState := some tv } : CommercialPaper).setOwner no) with
        | error e =>
          simp only [hupd, jsTry_error] at h
          exact Except.noConfusion h
        | ok l3 =>
          simp only [hupd, jsTry_ok, Except.ok.injEq, Prod.mk.injEq] at h
          obtain ⟨hl, hb⟩ := h
          exact ⟨Or.inl hpv, by rw [← hl]; exact hupd, hb.symm⟩
      · simp only [beq_iff_eq, hpv, if_false, jsTry_ok, hsp, beq_iff_eq] at h
        by_cases htv : paper.currentState = some tv
        · simp only [htv, if_true] at h
          cases hupd : PaperList.updatePaper ledger (paper.setOwner no) with
          | error e =>
            simp only [hupd, jsTry_error] at h
            exact Except.noConfusion h
          | ok l3 =>
            simp only [hupd, jsTry_ok, Except.ok.injEq, Prod.mk.injEq] at h
            obtain ⟨hl, hb⟩ := h
            have hrw : ({ paper with currentState := some tv, owner := some no }
                : CommercialPaper) = paper.setOwner no := by
              cases paper
              simp_all [CommercialPaper.setOwner]
            refine ⟨Or.inr htv, ?_, ?_⟩
            · rw [hrw, ← hl]; exact hupd
            · rw [hrw]; exact hb.symm
        · simp only [htv, if_false] at h
          exact Except.noConfusion h
    · rw [if_pos hown] at h
      exact Except.noConfusion h

/-- the owner gate of the shared advancing body: a mismatched current owner
throws the is-not-owned-by error before any state method or ledger update
runs. -/
theorem advanceBody_owner_mismatch (fp st sp nv : String) (ledger : Ledger)
    (issuer : String) (pn : Nat) (co no : String) (paper : CommercialPaper)
    (hget : PaperList.getPaper ledger
      (CommercialPaper.makeKey [issuer, natToString pn]) = .ok paper)
    (hown : paper.getOwner ≠ some co) :
    advanceBody fp st sp nv ledger issuer pn co no
      = .error (.error ("Paper " ++ issuer ++ natToString pn
          ++ " is not owned by " ++ co)) := by
  simp only [advanceBody, hget, jsTry_ok]
  rw [if_pos hown]

/-- an advancing body whose first predicate method does not exist can never
succeed: the predicate throws before anything else happens. -/
theorem advanceBody_firstPred_undefined (fp st sp nv : String) (e0 : JsError)
    (hfp : ∀ p : CommercialPaper, p.callStatePred fp = .error e0)
    (ledger : Ledger) (issuer : String) (pn : Nat) (co no : String)
    (l2 : Ledger) (buf : Buffer)
    (h : advanceBody fp st sp nv ledger issuer pn co no = .ok (l2, buf)) :
    False := by
  simp only [advanceBody] at h
  cases hget : PaperList.getPaper ledger
      (CommercialPaper.makeKey [issuer, natToString pn]) with
  | error e =>
    simp only [hget, jsTry_error] at h
    exact Except.noConfusion h
  | ok paper =>
    simp only [hget, jsTry_ok] at h
    by_cases hown : paper.getOwner = some co
    · rw [if_neg (not_not_intro hown)] at h
      simp only [hfp, jsTry_error] at h
      exact Except.noConfusion h
    · rw [if_pos hown] at h
      exact Except.noConfusion h

/-- an advancing body whose setter and target predicate methods do not exist
can never succeed: whichever branch the predecessor predicate takes, the
next method call throws. -/
theorem advanceBody_setter_undefined (fp st sp nv : String) (pv : Nat)
    (e1 e2 : JsError)
    (hfp : ∀ p : CommercialPaper,
      p.callStatePred fp = .ok (p.currentState == some pv))
    (hst : ∀ p : CommercialPaper, p.callStateSetter st = .error e1)
    (hsp : ∀ p : CommercialPaper, p.callStatePred sp = .error e2)
    (ledger : Ledger) (issuer : String) (pn : Nat) (co no : String)
    (l2 : Ledger) (buf : Buffer)
    (h : advanceBody fp st sp nv ledger issuer pn co no = .ok (l2, buf)) :
    False := by
  simp only [advanceBody] at h
  cases hget : PaperList.getPaper ledger
      (CommercialPaper.makeKey [issuer, natToString pn]) with
  | error e =>
    simp only [hget, jsTry_error] at h
    exact Except.noConfusion h
  | ok paper =>
    simp only [hget, jsTry_ok] at h
    by_cases hown : paper.getOwner = some co
    · rw [if_neg (not_not_intro hown)] at h
      simp only [hfp, jsTry_ok] at h
      by_cases hpv : paper.currentState = some pv
      · simp only [hpv, beq_self_eq_true, if_true, hst, jsTry_error] at h
        exact Except.noConfusion h
      · simp only [beq_iff_eq, hpv, if_false, jsTry_ok, hsp, jsTry_error] at h
        exact Except.noConfusion h
    · rw [if_pos hown] at h
      exact Except.noConfusion h

/-- `earlyPay` can never succeed: `setEarlyPay` and `isEarlyPay` do not
exist on the entity class. -/
theorem earlyPay_not_ok (ledger : Ledger) (issuer : String) (pn : Nat)
    (co no : String) (amt : Nat) (dt : String) (l2 : Ledger) (buf : Buffer) :
    CommercialPaperContract.earlyPay ledger issuer pn co no amt dt
      ≠ .ok (l2, buf) := fun h =>
  advanceBody_setter_undefined "isConfirm" "setEarlyPay" "isEarlyPay"
    "early paid" 4 _ _ callStatePred_isConfirm callStateSetter_setEarlyPay
    callStatePred_isEarlyPay ledger issuer pn co no l2 buf h

/-- `acknowledge` can never succeed: `isEarlyPay` does not exist on the
entity class. -/
theorem acknowledge_not_ok (ledger : Ledger) (issuer : String) (pn : Nat)
    (co no : String) (amt : Nat) (dt : String) (l2 : Ledger) (buf : Buffer) :
    CommercialPaperContract.acknowledge ledger issuer pn co no amt dt
      ≠ .ok (l2, buf) := fun h =>
  advanceBody_firstPred_undefined "isEarlyPay" "setAcknowledge" "isAcknowledge"
    "acknowledged" _ callStatePred_isEarlyPay ledger issuer pn co no l2 buf h

/-- `pay` can never succeed: `isAcknowledge` does not exist on the entity
class. -/
theorem pay_not_ok (ledger : Ledger) (issuer : String) (pn : Nat)
    (co no : String) (amt : Nat) (dt : String) (l2 : Ledger) (buf : Buffer) :
    CommercialPaperContract.pay ledger issuer pn co no amt dt
      ≠ .ok (l2, buf) := fun h =>
  advanceBody_firstPred_undefined "isAcknowledge" "setPay" "isPay"
    "paid" _ callStatePred_isAcknowledge ledger issuer pn co no l2 buf h

/-- lookup after replacement: the entry at the replaced key changes, every
other entry is untouched, and no entry appears or disappears. -/
theorem ledgerGet_ledgerReplace (l : Ledger) (key k : String)
    (p : CommercialPaper) :
    ledgerGet (ledgerReplace l key p) k
      = (ledgerGet l k).map (fun q => if k = key then p else q) := by
  induction l with
  | nil => rfl
  | cons e rest ih =>
    obtain ⟨k1, q1⟩ := e
    simp only [ledgerReplace, ledgerGet]
    by_cases hk : k1 = k
    · subst hk
      simp
    · simp only [if_neg hk, ih]

/-- a successful update presupposes an existing record and replaces it. -/
theorem updatePaper_ok_elim (ledger : Ledger) (p : CommercialPaper)
    (l2 : Ledger) (h : PaperList.updatePaper ledger p = .ok l2) :
    (∃ q, ledgerGet ledger p.key = some q) ∧
    l2 = ledgerReplace ledger p.key p := by
  unfold PaperList.updatePaper at h
  cases hg : ledgerGet ledger p.key with
  | none =>
    rw [hg] at h
    exact Except.noConfusion h
  | some q =>
    rw [hg] at h
    injection h with h1
    exact ⟨⟨q, rfl⟩, h1.symm⟩

/-- a successful create presupposes a vacant key and prepends the record. -/
theorem addPaper_ok_elim (ledger : Ledger) (p : CommercialPaper)
    (l2 : Ledger) (h : PaperList.addPaper ledger p = .ok l2) :
    ledgerGet ledger p.key = none ∧ l2 = (p.key, p) :: ledger := by
  unfold PaperList.addPaper at h
  cases hg : ledgerGet ledger p.key with
  | none =>
    rw [hg] at h
    injection h with h1
    exact ⟨rfl, h1.symm⟩
  | some q =>
    rw [hg] at h
    exact Except.noConfusion h

/-- anatomy of a successful purchase: the derived key was vacant, and the
ledger gained exactly one record there — the fresh paper at state
PURCHASE(1) owned by the supplied new owner — which is also returned
serialized. -/
theorem purchase_ok_elim (ledger : Ledger) (issuer : String) (pn : Nat)
    (no idt mdt : String) (fv : Nat) (l2 : Ledger) (buf : Buffer)
    (h : CommercialPaperContract.purchase ledger issuer pn no idt mdt fv
      = .ok (l2, buf)) :
    ledgerGet ledger (State.makeKey [issuer, natToString pn]) = none ∧
    l2 = (State.makeKey [issuer, natToString pn],
      { CommercialPaper.createInstance issuer pn idt mdt fv with
          currentState := some 1, owner := some no }) :: ledger ∧
    buf = CommercialPaper.toBuffer
      { CommercialPaper.createInstance issuer pn idt mdt fv with
          currentState := some 1, owner := some no } := by
  simp only [CommercialPaperContract.purchase, callStateSetter_setPurchase,
    jsTry_ok] at h
  cases hadd : PaperList.addPaper ledger
      (({ CommercialPaper.createInstance issuer pn idt mdt fv with
          currentState := some 1 } : CommercialPaper).setOwner no) with
  | error e =>
    simp only [hadd, jsTry_error] at h
    exact Except.noConfusion h
  | ok l3 =>
    simp only [hadd, jsTry_ok, Except.ok.injEq, Prod.mk.injEq] at h
    obtain ⟨hl, hb⟩ := h
    obtain ⟨hnone, hcons⟩ := addPaper_ok_elim _ _ _ hadd
    refine ⟨hnone, ?_, hb.symm⟩
    rw [← hl, hcons]
    rfl

/-- reading a paper succeeds exactly when the record is stored. -/
theorem getPaper_ok_iff (l : Ledger) (key : String) (p : CommercialPaper) :
    PaperList.getPaper l key = .ok p ↔ ledgerGet l key = some p := by
  unfold PaperList.getPaper
  cases h : ledgerGet l key <;> simp

/-- C4.  For every advancing operation and stored entity, a supplied
currentOwner different from the stored owner makes the operation fail with
the owner-mismatch error; the returned value is the error alone, so no
mutated entity is persisted — in this embedding an update is only reachable
after the owner gate passes. -/
theorem advance_owner_mismatch_no_mutation (op : AdvanceOp) (ledger : Ledger)
    (issuer : String) (pn : Nat) (co no : String) (amt : Nat) (dt : String)
    (paper : CommercialPaper)
    (hget : PaperList.getPaper ledger
      (CommercialPaper.makeKey [issuer, natToString pn]) = .ok paper)
    (hown : paper.getOwner ≠ some co) :
    runAdvance op ledger issuer pn co no amt dt
      = .error (.error ("Paper " ++ issuer ++ natToString pn
          ++ " is not owned by " ++ co)) := by
  cases op <;>
    exact advanceBody_owner_mismatch _ _ _ _ _ _ _ _ _ _ hget hown

/-- C4 witness: the sample paper is owned by DigiBank, so `invoice` invoked
by WrongParty fails with the owner-mismatch error. -/
theorem advance_owner_mismatch_no_mutation_witness :
    PaperList.getPaper [("MagnetoCorp:1", samplePaper)]
      (CommercialPaper.makeKey ["MagnetoCorp", natToString 1])
      = .ok samplePaper ∧
    samplePaper.getOwner ≠ some "WrongParty" ∧
    runAdvance .invoice [("MagnetoCorp:1", samplePaper)] "MagnetoCorp" 1
      "WrongParty" "X" 4900000 "2020-06-01"
      = .error (.error ("Paper " ++ "MagnetoCorp" ++ natToString 1
          ++ " is not owned by " ++ "WrongParty")) :=
  ⟨by decide, by decide,
    advance_owner_mismatch_no_mutation .invoice [("MagnetoCorp:1", samplePaper)]
      "MagnetoCorp" 1 "WrongParty" "X" 4900000 "2020-06-01" samplePaper
      (by decide) (by decide)⟩

/-- C7.  A successful advancing operation persists and returns an entity
differing from the loaded one in at most `owner` and `currentState`: issuer,
paperNumber, issueDateTime, maturityDateTime, faceValue, the type tag and
the key are unchanged, and the accepted amount and dateTime arguments are
stored nowhere (they do not even reach the shared body). -/
theorem advance_frame_only_owner_state (op : AdvanceOp) (ledger : Ledger)
    (issuer : String) (pn : Nat) (co no : String) (amt : Nat) (dt : String)
    (l2 : Ledger) (buf : Buffer) (paper : CommercialPaper)
    (h : runAdvance op ledger issuer pn co no amt dt = .ok (l2, buf))
    (hget : PaperList.getPaper ledger
      (CommercialPaper.makeKey [issuer, natToString pn]) = .ok paper) :
    ∃ p2 : CommercialPaper,
      l2 = ledgerReplace ledger p2.key p2 ∧ buf = p2.toBuffer ∧
      p2.issuer = paper.issuer ∧ p2.paperNumber = paper.paperNumber ∧
      p2.issueDateTime = paper.issueDateTime ∧
      p2.maturityDateTime = paper.maturityDateTime ∧
      p2.faceValue = paper.faceValue ∧ p2.«class» = paper.«class» ∧
      p2.key = paper.key := by
  cases op with
  | invoice =>
    obtain ⟨paper', hget', hown, hor, hupd, hbuf⟩ :=
      advanceBody_ok_elim "isPurchase" "setInvoice" "isInvoice" "invoiced" 1 2
        callStatePred_isPurchase callStateSetter_setInvoice
        callStatePred_isInvoice ledger issuer pn co no l2 buf h
    rw [hget] at hget'
    injection hget' with hpp
    subst hpp
    obtain ⟨_, hrep⟩ := updatePaper_ok_elim _ _ _ hupd
    exact ⟨_, hrep, hbuf, rfl, rfl, rfl, rfl, rfl, rfl, rfl⟩
  | issue =>
    obtain ⟨paper', hget', hown, hor, hupd, hbuf⟩ :=
      advanceBody_ok_elim "isInvoice" "setIssue" "isIssue" "issued" 2 3
        callStatePred_isInvoice callStateSetter_setIssue
        callStatePred_isIssue ledger issuer pn co no l2 buf h
    rw [hget] at hget'
    injection hget' with hpp
    subst hpp
    obtain ⟨_, hrep⟩ := updatePaper_ok_elim _ _ _ hupd
    exact ⟨_, hrep, hbuf, rfl, rfl, rfl, rfl, rfl, rfl, rfl⟩
  | confirm =>
    obtain ⟨paper', hget', hown, hor, hupd, hbuf⟩ :=
      advanceBody_ok_elim "isIssue" "setConfirm" "isConfirm" "confirmed" 3 4
        callStatePred_isIssue callStateSetter_setConfirm
        callStatePred_isConfirm ledger issuer pn co no l2 buf h
    rw [hget] at hget'
    injection hget' with hpp
    subst hpp
    obtain ⟨_, hrep⟩ := updatePaper_ok_elim _ _ _ hupd
    exact ⟨_, hrep, hbuf, rfl, rfl, rfl, rfl, rfl, rfl, rfl⟩
  | earlyPay =>
    exact absurd h (earlyPay_not_ok ledger issuer pn co no amt dt l2 buf)
  | acknowledge =>
    exact absurd h (acknowledge_not_ok ledger issuer pn co no amt dt l2 buf)
  | pay => exact absurd h (pay_not_ok ledger issuer pn co no amt dt l2 buf)


/-- C7 witness: a pure ownership transfer by `invoice` on the sample paper
already at INVOICE keeps every field but the owner. -/
theorem advance_frame_only_owner_state_witness :
    ∃ p2 : CommercialPaper,
      ([("MagnetoCorp:1", { samplePaper with owner := some "DigiBank2" })]
        : Ledger) = ledgerReplace [("MagnetoCorp:1", samplePaper)] p2.key p2 ∧
      CommercialPaper.toBuffer { samplePaper with owner := some "DigiBank2" }
        = p2.toBuffer ∧
      p2.issuer = samplePaper.issuer ∧
      p2.paperNumber = samplePaper.paperNumber ∧
      p2.issueDateTime = samplePaper.issueDateTime ∧
      p2.maturityDateTime = samplePaper.maturityDateTime ∧
      p2.faceValue = samplePaper.faceValue ∧
      p2.«class» = samplePaper.«class» ∧
      p2.key = samplePaper.key :=
  advance_frame_only_owner_state .invoice [("MagnetoCorp:1", samplePaper)]
    "MagnetoCorp" 1 "DigiBank" "DigiBank2" 4900000 "2020-06-02"
    [("MagnetoCorp:1", { samplePaper with owner := some "DigiBank2" })]
    (CommercialPaper.toBuffer { samplePaper with owner := some "DigiBank2" })
    samplePaper (by decide) (by decide)

/-- replacing a record with one whose state is reachable preserves the
all-states-reachable ledger invariant. -/
theorem replace_states_ok (l l2 : Ledger) (h : LedgerStatesOk l)
    (pnew : CommercialPaper) (hok : StateOk pnew)
    (hrep : l2 = ledgerReplace l pnew.key pnew) :
    LedgerStatesOk l2 := by
  intro k p2 hp2
  rw [hrep, ledgerGet_ledgerReplace] at hp2
  cases hlk : ledgerGet l k with
  | none =>
    rw [hlk] at hp2
    simp only [Option.map_none'] at hp2
    exact Option.noConfusion hp2
  | some q0 =>
    rw [hlk] at hp2
    simp only [Option.map_some', Option.some.injEq] at hp2
    by_cases hkk : k = pnew.key
    · rw [if_pos hkk] at hp2
      exact hp2 ▸ hok
    · rw [if_neg hkk] at hp2
      exact hp2 ▸ h k q0 hlk

/-- on a well-keyed ledger, replacing the record loaded at its own key by
one whose state lies within one step above it moves every stored state by at
most one step and never downward. -/
theorem replace_monotone_aux (l l2 : Ledger) (hwk : WellKeyed l) (K : String)
    (paper pnew : CommercialPaper) (hKey : pnew.key = paper.key)
    (hgl : ledgerGet l K = some paper)
    (s2v : Nat) (hs2 : pnew.currentState = some s2v)
    (hbound : ∀ s, paper.currentState = some s → s ≤ s2v ∧ s2v ≤ s + 1)
    (hrep : l2 = ledgerReplace l pnew.key pnew)
    (k : String) (p2 : CommercialPaper) (hp2 : ledgerGet l2 k = some p2) :
    (∀ p, ledgerGet l k = some p → ∀ s, p.currentState = some s →
      ∃ s2, p2.currentState = some s2 ∧ s ≤ s2 ∧ s2 ≤ s + 1) ∧
    (ledgerGet l k = none → p2.currentState = some 1) := by
  have hKeq : paper.key = K := hwk K paper hgl
  subst hrep
  rw [ledgerGet_ledgerReplace] at hp2
  cases hlk : ledgerGet l k with
  | none =>
    rw [hlk] at hp2
    simp only [Option.map_none'] at hp2
    exact Option.noConfusion hp2
  | some q0 =>
    rw [hlk] at hp2
    simp only [Option.map_some', Option.some.injEq] at hp2
    constructor
    · intro p hp s hs
      injection hp with hpq
      by_cases hkk : k = pnew.key
      · rw [if_pos hkk] at hp2
        have hq0 : q0 = paper := by
          rw [hkk, hKey, hKeq] at hlk
          rw [hgl] at hlk
          injection hlk with heq
          exact heq.symm
        have hps : paper.currentState = some s := by
          rw [← hq0, hpq]
          exact hs
        obtain ⟨h1, h2⟩ := hbound s hps
        exact ⟨s2v, by rw [← hp2]; exact hs2, h1, h2⟩
      · rw [if_neg hkk] at hp2
        exact ⟨s, by rw [← hp2, hpq]; exact hs, Nat.le_refl s, Nat.le_succ s⟩
    · intro hnone
      exact Option.noConfusion hnone

/-- C6.  On a well-keyed ledger, a successful invocation of any of the seven
operations moves every stored entity's state monotonically: an entity stored
before and after keeps its state or gains exactly one step, and an entity
the invocation brings into existence carries state PURCHASE(1) — the
creation case.  The three operations whose state methods are missing never
succeed, so the statement holds for them vacuously. -/
theorem runCommand_state_monotone (cmd : Command) (l : Ledger)
    (hwk : WellKeyed l) (l2 : Ledger) (buf : Buffer)
    (h : runCommand cmd l = .ok (l2, buf))
    (k : String) (p2 : CommercialPaper) (hp2 : ledgerGet l2 k = some p2) :
    (∀ p, ledgerGet l k = some p → ∀ s, p.currentState = some s →
      ∃ s2, p2.currentState = some s2 ∧ s ≤ s2 ∧ s2 ≤ s + 1) ∧
    (ledgerGet l k = none → p2.currentState = some 1) := by
  cases cmd with
  | purchase issuer pn no idt mdt fv =>
    obtain ⟨hnone, hl2, hbuf⟩ := purchase_ok_elim _ _ _ _ _ _ _ _ _ h
    rw [hl2] at hp2
    simp only [ledgerGet] at hp2
    by_cases hk : State.makeKey [issuer, natToString pn] = k
    · rw [if_pos hk] at hp2
      injection hp2 with hp2
      constructor
      · intro p hp
        rw [← hk, hnone] at hp
        exact Option.noConfusion hp
      · intro _
        rw [← hp2]
    · rw [if_neg hk] at hp2
      constructor
      · intro p hp s hs
        rw [hp] at hp2
        injection hp2 with hq
        refine ⟨s, ?_, Nat.le_refl s, Nat.le_succ s⟩
        rw [← hq]
        exact hs
      · intro hnone2
        rw [hnone2] at hp2
        exact Option.noConfusion hp2
  | advance op issuer pn co no amt dt =>
    cases op with
    | invoice =>
      obtain ⟨paper, hget, hown, hor, hupd, hbuf⟩ :=
        advanceBody_ok_elim "isPurchase" "setInvoice" "isInvoice" "invoiced" 1 2
          callStatePred_isPurchase callStateSetter_setInvoice
          callStatePred_isInvoice l issuer pn co no l2 buf h
      obtain ⟨_, hrep⟩ := updatePaper_ok_elim _ _ _ hupd
      refine replace_monotone_aux l l2 hwk _ paper
        ({ paper with currentState := some 2, owner := some no }) rfl
        ((getPaper_ok_iff _ _ _).mp hget) 2 rfl ?_ hrep k p2 hp2
      intro s hps
      rcases hor with h1 | h1 <;> rw [hps] at h1 <;> injection h1 with h1 <;>
        omega
    | issue =>
      obtain ⟨paper, hget, hown, hor, hupd, hbuf⟩ :=
        advanceBody_ok_elim "isInvoice" "setIssue" "isIssue" "issued" 2 3
          callStatePred_isInvoice callStateSetter_setIssue
          callStatePred_isIssue l issuer pn co no l2 buf h
      obtain ⟨_, hrep⟩ := updatePaper_ok_elim _ _ _ hupd
      refine replace_monotone_aux l l2 hwk _ paper
        ({ paper with currentState := some 3, owner := some no }) rfl
        ((getPaper_ok_iff _ _ _).mp hget) 3 rfl ?_ hrep k p2 hp2
      intro s hps
      rcases hor with h1 | h1 <;> rw [hps] at h1 <;> injection h1 with h1 <;>
        omega
    | confirm =>
      obtain ⟨paper, hget, hown, hor, hupd, hbuf⟩ :=
        advanceBody_ok_elim "isIssue" "setConfirm" "isConfirm" "confirmed" 3 4
          callStatePred_isIssue callStateSetter_setConfirm
          callStatePred_isConfirm l issuer pn co no l2 buf h
      obtain ⟨_, hrep⟩ := updatePaper_ok_elim _ _ _ hupd
      refine replace_monotone_aux l l2 hwk _ paper
        ({ paper with currentState := some 4, owner := some no }) rfl
        ((getPaper_ok_iff _ _ _).mp hget) 4 rfl ?_ hrep k p2 hp2
      intro s hps
      rcases hor with h1 | h1 <;> rw [hps] at h1 <;> injection h1 with h1 <;>
        omega
    | earlyPay =>
      exact absurd h (earlyPay_not_ok l issuer pn co no amt dt l2 buf)
    | acknowledge =>
      exact absurd h (acknowledge_not_ok l issuer pn co no amt dt l2 buf)
    | pay => exact absurd h (pay_not_ok l issuer pn co no amt dt l2 buf)

/-- the singleton sample ledger stores its paper at the paper's own key. -/
theorem sampleLedger_wellKeyed : WellKeyed [("MagnetoCorp:1", samplePaper)] := by
  intro k p hp
  simp only [ledgerGet] at hp
  by_cases hk : "MagnetoCorp:1" = k
  · rw [if_pos hk] at hp
    injection hp with h
    rw [← h, ← hk]
    rfl
  · rw [if_neg hk] at hp
    exact Option.noConfusion hp

/-- C6 witness: a pure transfer by `invoice` on the sample paper at
INVOICE(2) leaves the state at 2, within the allowed one-step window. -/
theorem runCommand_state_monotone_witness :
    ∃ s2, ({ samplePaper with owner := some "DigiBank2" }
      : CommercialPaper).currentState = some s2 ∧ 2 ≤ s2 ∧ s2 ≤ 2 + 1 :=
  (runCommand_state_monotone
      (Command.advance .invoice "MagnetoCorp" 1 "DigiBank" "DigiBank2"
        4900000 "2020-06-02")
      [("MagnetoCorp:1", samplePaper)] sampleLedger_wellKeyed
      [("MagnetoCorp:1", { samplePaper with owner := some "DigiBank2" })]
      (CommercialPaper.toBuffer { samplePaper with owner := some "DigiBank2" })
      (by decide) "MagnetoCorp:1"
      { samplePaper with owner := some "DigiBank2" } (by decide)).1
    samplePaper (by decide) 2 (by decide)

/-- one committed invocation preserves the reachable-states invariant. -/
theorem commitResult_states_ok (c : Command) (l : Ledger)
    (h : LedgerStatesOk l) : LedgerStatesOk (commitResult (runCommand c l) l) := by
  cases hrun : runCommand c l with
  | error e => simpa only [commitResult] using h
  | ok res =>
    obtain ⟨l2, buf⟩ := res
    simp only [commitResult]
    cases c with
    | purchase issuer pn no idt mdt fv =>
      obtain ⟨hnone, hl2, hbuf⟩ := purchase_ok_elim _ _ _ _ _ _ _ _ _ hrun
      intro k p2 hp2
      rw [hl2] at hp2
      simp only [ledgerGet] at hp2
      by_cases hk : State.makeKey [issuer, natToString pn] = k
      · rw [if_pos hk] at hp2
        injection hp2 with hp2
        rw [← hp2]
        exact Or.inl rfl
      · rw [if_neg hk] at hp2
        exact h k p2 hp2
    | advance op issuer pn co no amt dt =>
      cases op with
      | invoice =>
        obtain ⟨paper, hget, hown, hor, hupd, hbuf⟩ :=
          advanceBody_ok_elim "isPurchase" "setInvoice" "isInvoice" "invoiced"
            1 2 callStatePred_isPurchase callStateSetter_setInvoice
            callStatePred_isInvoice l issuer pn co no l2 buf hrun
        obtain ⟨_, hrep⟩ := updatePaper_ok_elim _ _ _ hupd
        exact replace_states_ok l l2 h _ (Or.inr (Or.inl rfl)) hrep
      | issue =>
        obtain ⟨paper, hget, hown, hor, hupd, hbuf⟩ :=
          advanceBody_ok_elim "isInvoice" "setIssue" "isIssue" "issued"
            2 3 callStatePred_isInvoice callStateSetter_setIssue
            callStatePred_isIssue l issuer pn co no l2 buf hrun
        obtain ⟨_, hrep⟩ := updatePaper_ok_elim _ _ _ hupd
        exact replace_states_ok l l2 h _ (Or.inr (Or.inr (Or.inl rfl))) hrep
      | confirm =>
        obtain ⟨paper, hget, hown, hor, hupd, hbuf⟩ :=
          advanceBody_ok_elim "isIssue" "setConfirm" "isConfirm" "confirmed"
            3 4 callStatePred_isIssue callStateSetter_setConfirm
            callStatePred_isConfirm l issuer pn co no l2 buf hrun
        obtain ⟨_, hrep⟩ := updatePaper_ok_elim _ _ _ hupd
        exact replace_states_ok l l2 h _ (Or.inr (Or.inr (Or.inr rfl))) hrep
      | earlyPay =>
        exact absurd hrun (earlyPay_not_ok l issuer pn co no amt dt l2 buf)
      | acknowledge =>
        exact absurd hrun (acknowledge_not_ok l issuer pn co no amt dt l2 buf)
      | pay => exact absurd hrun (pay_not_ok l issuer pn co no amt dt l2 buf)

/-- any sequence of invocations preserves the reachable-states invariant. -/
theorem runCommands_states_ok (cmds : List Command) (l : Ledger)
    (h : LedgerStatesOk l) : LedgerStatesOk (runCommands cmds l) := by
  induction cmds generalizing l with
  | nil => exact h
  | cons c cs ih => exact ih _ (commitResult_states_ok c l h)

/-- C10.  Starting from an empty ledger, every entity any sequence of the
seven operations ever stores has currentState PURCHASE(1), INVOICE(2),
ISSUE(3) or CONFIRM(4) — the values DEPOSIT(5), APPROVE(6) and PAY(7) are
never assigned, because `earlyPay`, `acknowledge` and `pay` (the only
operations that could move past CONFIRM) invoke state methods the entity
class does not define and therefore never complete. -/
theorem reachable_states_purchase_confirm :
    (∀ cmds k p, ledgerGet (runCommands cmds []) k = some p →
      p.currentState = some 1 ∨ p.currentState = some 2 ∨
      p.currentState = some 3 ∨ p.currentState = some 4) ∧
    (∀ (op : AdvanceOp) (ledger : Ledger) (issuer : String) (pn : Nat)
        (co no : String) (amt : Nat) (dt : String) (l2 : Ledger) (buf : Buffer),
      (op = .earlyPay ∨ op = .acknowledge ∨ op = .pay) →
      runAdvance op ledger issuer pn co no amt dt ≠ .ok (l2, buf)) := by
  constructor
  · intro cmds k p hp
    exact runCommands_states_ok cmds []
      (fun k p hbad => Option.noConfusion hbad) k p hp
  · rintro op ledger issuer pn co no amt dt l2 buf (rfl | rfl | rfl)
    · exact earlyPay_not_ok ledger issuer pn co no amt dt l2 buf
    · exact acknowledge_not_ok ledger issuer pn co no amt dt l2 buf
    · exact pay_not_ok ledger issuer pn co no amt dt l2 buf

/-- C10 witness: after a purchase from the empty ledger, the stored entity
is at PURCHASE(1), one of the four reachable states. -/
theorem reachable_states_purchase_confirm_witness :
    ({ samplePaper with currentState := some 1, owner := some "MagnetoCorp" }
      : CommercialPaper).currentState = some 1 ∨
    ({ samplePaper with currentState := some 1, owner := some "MagnetoCorp" }
      : CommercialPaper).currentState = some 2 ∨
    ({ samplePaper with currentState := some 1, owner := some "MagnetoCorp" }
      : CommercialPaper).currentState = some 3 ∨
    ({ samplePaper with currentState := some 1, owner := some "MagnetoCorp" }
      : CommercialPaper).currentState = some 4 :=
  reachable_states_purchase_confirm.1
    [Command.purchase "MagnetoCorp" 1 "MagnetoCorp" "2020-05-31" "2020-11-30"
      5000000]
    "MagnetoCorp:1"
    { samplePaper with currentState := some 1, owner := some "MagnetoCorp" }
    (by decide)

/-- every character the digit renderer emits is a decimal digit. -/
theorem natDigitsAux_mem (fuel : Nat) :
    ∀ n, ∀ c ∈ natDigitsAux fuel n, ∃ d, d < 10 ∧ c = Char.ofNat (d + 48) := by
  induction fuel with
  | zero =>
    intro n c hc
    simp [natDigitsAux] at hc
  | succ fuel ih =>
    intro n c hc
    cases n with
    | zero => simp [natDigitsAux] at hc
    | succ m =>
      simp only [natDigitsAux, List.mem_append, List.mem_singleton] at hc
      rcases hc with hc | hc
      · exact ih _ c hc
      · exact ⟨(m + 1) % 10, Nat.mod_lt _ (by omega), hc⟩

/-- code point of a digit character. -/
theorem charOfNat_digit_toNat (d : Nat) (hd : d < 10) :
    (Char.ofNat (d + 48)).toNat = d + 48 := by
  interval_cases d <;> decide

/-- peeling the least significant digit off the accumulator fold. -/
theorem digitsToNat_append (ds : List Char) (c : Char) :
    digitsToNat (ds ++ [c]) = digitsToNat ds * 10 + (c.toNat - 48) := by
  simp [digitsToNat, List.foldl_append]

/-- the decimal renderer round-trips through the digit evaluator, so it
loses no information. -/
theorem digitsToNat_natDigitsAux (fuel : Nat) :
    ∀ n, n < fuel → digitsToNat (natDigitsAux fuel n) = n := by
  induction fuel with
  | zero => intro n h; omega
  | succ fuel ih =>
    intro n hn
    cases n with
    | zero => simp [natDigitsAux, digitsToNat]
    | succ m =>
      simp only [natDigitsAux]
      rw [digitsToNat_append]
      have h10 : (m + 1) / 10 < fuel := by
        have := Nat.div_lt_self (Nat.succ_pos m) (by omega : 1 < 10)
        omega
      rw [ih _ h10, charOfNat_digit_toNat _ (Nat.mod_lt _ (by omega))]
      omega

/-- canonical decimal rendering is injective. -/
theorem natToString_inj (m n : Nat) (h : natToString m = natToString n) :
    m = n := by
  unfold natToString at h
  by_cases hm : m = 0 <;> by_cases hn : n = 0
  · omega
  · rw [if_pos hm, if_neg hn] at h
    have hd : ("0" : String).data = natDigitsAux (n + 1) n :=
      congrArg String.data h
    have h2 := digitsToNat_natDigitsAux (n + 1) n (Nat.lt_succ_self n)
    rw [← hd] at h2
    have h0 : digitsToNat ("0" : String).data = 0 := by decide
    omega
  · rw [if_neg hm, if_pos hn] at h
    have hd : natDigitsAux (m + 1) m = ("0" : String).data :=
      congrArg String.data h
    have h2 := digitsToNat_natDigitsAux (m + 1) m (Nat.lt_succ_self m)
    rw [hd] at h2
    have h0 : digitsToNat ("0" : String).data = 0 := by decide
    omega
  · rw [if_neg hm, if_neg hn] at h
    have hd : natDigitsAux (m + 1) m = natDigitsAux (n + 1) n :=
      congrArg String.data h
    have h1 := digitsToNat_natDigitsAux (m + 1) m (Nat.lt_succ_self m)
    have h2 := digitsToNat_natDigitsAux (n + 1) n (Nat.lt_succ_self n)
    rw [hd] at h1
    omega

/-- the canonical decimal rendering never contains the key separator. -/
theorem natToString_no_colon (n : Nat) : ':' ∉ (natToString n).data := by
  unfold natToString
  by_cases hn : n = 0
  · rw [if_pos hn]
    decide
  · rw [if_neg hn]
    intro hc
    obtain ⟨d, hd, hcd⟩ := natDigitsAux_mem (n + 1) n ':' hc
    interval_cases d <;> exact absurd hcd (by decide)

/-- splitting at a separator absent from both left components is unique. -/
theorem append_colon_inj (b d : List Char) :
    ∀ (a c : List Char), ':' ∉ a → ':' ∉ c →
    a ++ ':' :: b = c ++ ':' :: d → a = c ∧ b = d := by
  intro a
  induction a with
  | nil =>
    intro c ha hc h
    cases c with
    | nil =>
      injection h with h1 h2
      exact ⟨rfl, h2⟩
    | cons x cs =>
      injection h with h1 h2
      rw [← h1] at hc
      exact absurd (List.mem_cons_self _ _) hc
  | cons x xs ih =>
    intro c ha hc h
    cases c with
    | nil =>
      injection h with h1 h2
      rw [h1] at ha
      exact absurd (List.mem_cons_self _ _) ha
    | cons y cs =>
      injection h with h1 h2
      have ha2 : ':' ∉ xs := fun hm => ha (List.mem_cons_of_mem _ hm)
      have hc2 : ':' ∉ cs := fun hm => hc (List.mem_cons_of_mem _ hm)
      obtain ⟨hac, hbd⟩ := ih cs ha2 hc2 h2
      exact ⟨by rw [h1, hac], hbd⟩

/-- characters of a two-component key: the components around the
separator. -/
theorem makeKey_pair_data (a b : String) :
    (State.makeKey [a, b]).data = a.data ++ ':' :: b.data := by
  show (a ++ ":" ++ b).data = a.data ++ ':' :: b.data
  simp [String.data_append]

/-- C9.  For pairs whose issuer does not contain the reserved separator —
the validity condition the spec imposes on components — `makeKey` on
(issuer, paperNumber) is injective, and determinism is the right-to-left
direction: equal pairs give equal keys.  The paper number is rendered by the
canonical decimal stringifier, whose output never contains the separator
and which is itself injective. -/
theorem makeKey_deterministic_injective (i1 i2 : String) (n1 n2 : Nat)
    (h1 : ':' ∉ i1.data) (h2 : ':' ∉ i2.data) :
    State.makeKey [i1, natToString n1] = State.makeKey [i2, natToString n2]
      ↔ i1 = i2 ∧ n1 = n2 := by
  constructor
  · intro h
    have hd : i1.data ++ ':' :: (natToString n1).data
        = i2.data ++ ':' :: (natToString n2).data := by
      have h3 := congrArg String.data h
      rw [makeKey_pair_data, makeKey_pair_data] at h3
      exact h3
    obtain ⟨hi, hn⟩ :=
      append_colon_inj (natToString n1).data (natToString n2).data
        i1.data i2.data h1 h2 hd
    constructor
    · cases i1
      cases i2
      simp only at hi
      rw [hi]
    · apply natToString_inj
      cases hs1 : natToString n1
      cases hs2 : natToString n2
      rw [hs1, hs2] at hn
      simp only at hn
      rw [hn]
  · rintro ⟨rfl, rfl⟩
    rfl

/-- C9 witness: two concrete valid pairs differing in both components
collide only if the pairs are equal, which here they are not. -/
theorem makeKey_deterministic_injective_witness :
    (':' ∉ "MagnetoCorp".data) ∧ (':' ∉ "DigiBank".data) ∧
    (State.makeKey ["MagnetoCorp", natToString 1]
        = State.makeKey ["DigiBank", natToString 2]
      ↔ "MagnetoCorp" = "DigiBank" ∧ 1 = 2) :=
  ⟨by decide, by decide,
    makeKey_deterministic_injective "MagnetoCorp" "DigiBank" 1 2
      (by decide) (by decide)⟩
